import Mathlib

/-!
Verification of the frame sequencer, scene draw routines, cascade calculator
and setup paths of the Vulkan Playground renderer (src/src/main.cpp).

The command recording performed by `buildCommandBuffers`, `drawCSM`,
`drawScene` and `drawShadowCasters` is embedded as a pure function producing
a linear trace of recorded commands.  Push-constant payloads are exact
rationals (the source only ever pushes 0, 1 and -1 in these blocks).
-/

/-- Number of shadow map cascades (`SHADOW_MAP_CASCADE_COUNT`, main.cpp:44). -/
def SHADOW_MAP_CASCADE_COUNT : ℕ := 4

/-- Draw-mode tag for the scene draw routine (`SceneDrawType`, main.cpp:56). -/
inductive SceneDrawType
  | sceneDrawTypeRefract
  | sceneDrawTypeReflect
  | sceneDrawTypeDisplay
deriving DecidableEq

/-- Push-constant block of `drawScene` (main.cpp:468-472): a scale matrix, a
clip-plane equation and a shadow-enable flag. -/
structure ScenePushConstBlock where
  scale : Matrix (Fin 4) (Fin 4) ℚ
  clipPlane : Fin 4 → ℚ
  shadows : ℕ

/-- glm::scale(m, v): scale the first three basis columns of `m`
componentwise by `v` (the fourth column is kept). -/
def glmScale (m : Matrix (Fin 4) (Fin 4) ℚ) (v : Fin 3 → ℚ) :
    Matrix (Fin 4) (Fin 4) ℚ :=
  Matrix.of fun r c => m r c * ![v 0, v 1, v 2, 1] c

/-- The push-constant block `drawScene` derives from its draw-mode tag
(main.cpp:468-486): default scale = identity, clipPlane = 0, shadows = 1;
the reflect tag scales y by -1; refract and reflect set the water clip
plane (0,1,0,0) and disable shadows. -/
def scenePushConst (drawType : SceneDrawType) : ScenePushConstBlock :=
  let pushConst : ScenePushConstBlock :=
    { scale := 1, clipPlane := ![0, 0, 0, 0], shadows := 1 }
  let pushConst :=
    if drawType = SceneDrawType.sceneDrawTypeReflect then
      { pushConst with scale := glmScale pushConst.scale ![1, -1, 1] }
    else pushConst
  match drawType with
  | SceneDrawType.sceneDrawTypeRefract =>
      { pushConst with clipPlane := ![0, 1, 0, 0], shadows := 0 }
  | SceneDrawType.sceneDrawTypeReflect =>
      { pushConst with clipPlane := ![0, 1, 0, 0], shadows := 0 }
  | SceneDrawType.sceneDrawTypeDisplay => pushConst

/-- Pipelines bound by the recorded passes (main.cpp:67-73 and cascadeDebug). -/
inductive PipelineId
  | sky
  | terrain
  | mirror
  | debug
  | cascadeDebug
  | depthpass
deriving DecidableEq

/-- Descriptor sets bound by the recorded passes (main.cpp:136-141,
depthPass.descriptorSet, cascadeDebug.descriptorSet). -/
inductive DescriptorId
  | skysphere
  | terrain
  | waterplane
  | debugquad
  | cascadeDebugSet
  | depthPassSet
deriving DecidableEq

/-- Geometry submitted by model/heightmap draw calls. -/
inductive ModelId
  | skysphere
  | heightMapTerrain
  | waterPlane
deriving DecidableEq

/-- Framebuffers a render pass can begin on: each cascade's depth
framebuffer, the two offscreen targets and the per-image swapchain
framebuffer. -/
inductive FramebufferId
  | cascadeFB (i : ℕ)
  | refractionFB
  | reflectionFB
  | swapchainFB (image : ℕ)
deriving DecidableEq

/-- One recorded command of a frame command stream. -/
inductive Cmd
  | cbBegin
  | cbEnd
  | beginPass (fb : FramebufferId)
  | endPass
  | setViewport
  | setScissor
  | bindPipeline (p : PipelineId)
  | bindDescriptorSets (d : DescriptorId)
  | pushConst (pc : ScenePushConstBlock)
  | pushCascade (cascadeIndex : ℕ)
  | pushDebug (val : ℕ)
  | draw (vertexCount instanceCount firstVertex firstInstance : ℕ)
  | drawModel (m : ModelId)
  | drawUI

/-- Commands recorded by `drawScene` (main.cpp:465-499): bind the sky
pipeline, push the tag's block, draw the skysphere; then bind the terrain
pipeline, push the same block, draw the heightmap terrain. -/
def drawScene (drawType : SceneDrawType) : List Cmd :=
  let pushConst := scenePushConst drawType
  [Cmd.bindPipeline PipelineId.sky,
   Cmd.bindDescriptorSets DescriptorId.skysphere,
   Cmd.pushConst pushConst,
   Cmd.drawModel ModelId.skysphere,
   Cmd.bindPipeline PipelineId.terrain,
   Cmd.bindDescriptorSets DescriptorId.terrain,
   Cmd.pushConst pushConst,
   Cmd.drawModel ModelId.heightMapTerrain]

/-- Commands recorded by `drawShadowCasters` (main.cpp:501-507). -/
def drawShadowCasters (cascadeIndex : ℕ) : List Cmd :=
  [Cmd.bindPipeline PipelineId.depthpass,
   Cmd.bindDescriptorSets DescriptorId.depthPassSet,
   Cmd.pushCascade cascadeIndex,
   Cmd.drawModel ModelId.heightMapTerrain]

/-- Commands recorded by `drawCSM` (main.cpp:734-767): viewport/scissor to
the shadow-map resolution, then one depth pass per cascade, in cascade
order, each on that cascade's framebuffer. -/
def drawCSM : List Cmd :=
  [Cmd.setViewport, Cmd.setScissor] ++
    (List.range SHADOW_MAP_CASCADE_COUNT).flatMap fun j =>
      Cmd.beginPass (FramebufferId.cascadeFB j) ::
        (drawShadowCasters j ++ [Cmd.endPass])

/-- The refraction offscreen pass of `buildCommandBuffers` (main.cpp:794-812). -/
def refractionPass : List Cmd :=
  Cmd.beginPass FramebufferId.refractionFB :: Cmd.setViewport :: Cmd.setScissor ::
    (drawScene SceneDrawType.sceneDrawTypeRefract ++ [Cmd.endPass])

/-- The reflection offscreen pass of `buildCommandBuffers` (main.cpp:817-835). -/
def reflectionPass : List Cmd :=
  Cmd.beginPass FramebufferId.reflectionFB :: Cmd.setViewport :: Cmd.setScissor ::
    (drawScene SceneDrawType.sceneDrawTypeReflect ++ [Cmd.endPass])

/-- The main swapchain pass of `buildCommandBuffers` (main.cpp:840-888):
scene draw, mirror-plane draw, up to three toggle-gated full-screen quad
draws, UI overlay, end pass. -/
def mainPass (debugDisplayReflection debugDisplayRefraction cascadeDebugEnabled : Bool)
    (cascadeDebugIndex : ℕ) (image : ℕ) : List Cmd :=
  [Cmd.beginPass (FramebufferId.swapchainFB image), Cmd.setViewport, Cmd.setScissor] ++
  drawScene SceneDrawType.sceneDrawTypeDisplay ++
  [Cmd.bindDescriptorSets DescriptorId.waterplane,
   Cmd.bindPipeline PipelineId.mirror,
   Cmd.drawModel ModelId.waterPlane] ++
  (if debugDisplayReflection then
    [Cmd.bindDescriptorSets DescriptorId.debugquad, Cmd.bindPipeline PipelineId.debug,
     Cmd.pushDebug 0, Cmd.draw 6 1 0 0]
   else []) ++
  (if debugDisplayRefraction then
    [Cmd.bindDescriptorSets DescriptorId.debugquad, Cmd.bindPipeline PipelineId.debug,
     Cmd.pushDebug 1, Cmd.draw 6 1 0 0]
   else []) ++
  (if cascadeDebugEnabled then
    [Cmd.bindDescriptorSets DescriptorId.cascadeDebugSet,
     Cmd.bindPipeline PipelineId.cascadeDebug,
     Cmd.pushCascade cascadeDebugIndex, Cmd.draw 6 1 0 0]
   else []) ++
  [Cmd.drawUI, Cmd.endPass]

/-- The full command stream recorded for one swapchain image
(`buildCommandBuffers` loop body, main.cpp:782-889). -/
def buildCommandBuffer (debugDisplayReflection debugDisplayRefraction cascadeDebugEnabled : Bool)
    (cascadeDebugIndex : ℕ) (image : ℕ) : List Cmd :=
  Cmd.cbBegin ::
    (drawCSM ++ refractionPass ++ reflectionPass ++
      mainPass debugDisplayReflection debugDisplayRefraction cascadeDebugEnabled
        cascadeDebugIndex image ++
      [Cmd.cbEnd])

/-- Application state relevant to command-stream rebuilds: the three debug
toggles, the cascade-debug index, the swapchain image count, and the
current per-image command streams. -/
structure AppState where
  debugDisplayReflection : Bool
  debugDisplayRefraction : Bool
  cascadeDebugEnabled : Bool
  cascadeDebugIndex : ℕ
  imageCount : ℕ
  commandBuffers : List (List Cmd)

/-- Function `buildCommandBuffers` (main.cpp:773-891): synchronously re-records the
command stream of every swapchain image from the current toggle state. -/
def buildCommandBuffers (st : AppState) : AppState :=
  let rebuilt := (List.range st.imageCount).map
    (buildCommandBuffer st.debugDisplayReflection st.debugDisplayRefraction
      st.cascadeDebugEnabled st.cascadeDebugIndex)
  { st with commandBuffers := rebuilt }

/-- Function `OnUpdateUIOverlay` (main.cpp:1367-1376), restricted to the three debug
checkboxes: each checkbox stores its new value and, when the value changed,
triggers a full `buildCommandBuffers` rebuild. -/
def OnUpdateUIOverlay (newReflection newRefraction newCascade : Bool)
    (st : AppState) : AppState :=
  let st1 : AppState := { st with debugDisplayReflection := newReflection }
  let st1 := if st.debugDisplayReflection ≠ newReflection then buildCommandBuffers st1 else st1
  let st2 : AppState := { st1 with debugDisplayRefraction := newRefraction }
  let st2 := if st1.debugDisplayRefraction ≠ newRefraction then buildCommandBuffers st2 else st2
  let st3 : AppState := { st2 with cascadeDebugEnabled := newCascade }
  let st3 := if st2.cascadeDebugEnabled ≠ newCascade then buildCommandBuffers st3 else st3
  st3

/-- The framebuffers of the render passes a trace begins, in recording order. -/
def passBegins (trace : List Cmd) : List FramebufferId :=
  trace.filterMap fun cmd =>
    match cmd with
    | Cmd.beginPass fb => some fb
    | _ => none

/-- Abstracted draw events of a trace, used to state draw ordering. -/
inductive DrawTag
  | model (m : ModelId)
  | fullscreenQuad
  | ui
deriving DecidableEq

/-- The draw events of a trace, in recording order. -/
def drawTags (trace : List Cmd) : List DrawTag :=
  trace.filterMap fun cmd =>
    match cmd with
    | Cmd.drawModel m => some (DrawTag.model m)
    | Cmd.draw _ _ _ _ => some DrawTag.fullscreenQuad
    | Cmd.drawUI => some DrawTag.ui
    | _ => none

/-- Recognizes a full-screen quad draw: a 6-vertex non-indexed draw. -/
def isFullscreenQuadDraw : Cmd → Bool
  | Cmd.draw 6 1 0 0 => true
  | _ => false

/-- The push-constant blocks recorded by a trace, in recording order. -/
def scenePushes (trace : List Cmd) : List ScenePushConstBlock :=
  trace.filterMap fun cmd =>
    match cmd with
    | Cmd.pushConst pc => some pc
    | _ => none

/-!
Setup-path error handling (`prepareOffscreen`, main.cpp:320-463, and
`prepareCSM`, main.cpp:513-646).  Every GPU creation call is modelled as an
operation whose success is decided by an oracle; `VK_CHECK_RESULT` aborts
with the failing operation on a failed result, and `assert` aborts without
one.  `prepareOffscreen` asserts the supported-depth-format query
(main.cpp:327-328); `prepareCSM` receives that query's result and never
checks it (main.cpp:516).
-/

/-- Offscreen framebuffer attachments (main.cpp:159). -/
inductive OffTarget
  | refraction
  | reflection
  | depth
deriving DecidableEq

/-- The GPU resource creation calls of the two setup paths, one constructor
per call site. -/
inductive VkOp
  | offRenderPass
  | offSampler
  | offImage (t : OffTarget)
  | offAlloc (t : OffTarget)
  | offBind (t : OffTarget)
  | offView (t : OffTarget)
  | offFramebuffer (t : OffTarget)
  | csmRenderPass
  | csmImage
  | csmAlloc
  | csmBind
  | csmFullView
  | csmCascadeView (i : ℕ)
  | csmCascadeFramebuffer (i : ℕ)
  | csmSampler
deriving DecidableEq

/-- How a setup path aborts: a failed `assert`, or `VK_CHECK_RESULT` on a
failed call (which identifies the failing operation). -/
inductive SetupAbort
  | assertFailed
  | vkFail (op : VkOp)
deriving DecidableEq

/-- Modelled from the spec: the `VK_CHECK_RESULT` macro lives in the
framework header (not part of this repository's sources); the spec states a
failed GPU call aborts immediately with the failing operation identified. -/
def vkCheckResult (ok : VkOp → Bool) (op : VkOp) : Except SetupAbort Unit :=
  if ok op then Except.ok () else Except.error (SetupAbort.vkFail op)

/-- Run a sequence of checked creation calls in order, stopping at the
first failure. -/
def runChecks (ok : VkOp → Bool) : List VkOp → Except SetupAbort Unit
  | [] => Except.ok ()
  | op :: ops =>
      match vkCheckResult ok op with
      | Except.ok _ => runChecks ok ops
      | Except.error e => Except.error e

/-- The checked calls of `createFrameBuffer` (main.cpp:280-316): image,
memory allocation, memory bind, image view. -/
def createFrameBufferOps (t : OffTarget) : List VkOp :=
  [VkOp.offImage t, VkOp.offAlloc t, VkOp.offBind t, VkOp.offView t]

/-- The checked creation calls of `prepareOffscreen` in source order
(main.cpp:388-462): render pass, sampler, the refraction and reflection
color targets, the shared depth attachment, the two framebuffers. -/
def prepareOffscreenOps : List VkOp :=
  [VkOp.offRenderPass, VkOp.offSampler] ++
  createFrameBufferOps OffTarget.refraction ++
  createFrameBufferOps OffTarget.reflection ++
  [VkOp.offImage OffTarget.depth, VkOp.offAlloc OffTarget.depth,
   VkOp.offBind OffTarget.depth, VkOp.offView OffTarget.depth,
   VkOp.offFramebuffer OffTarget.refraction, VkOp.offFramebuffer OffTarget.reflection]

/-- Function `prepareOffscreen` (main.cpp:320-463): asserts the supported-depth-format
query, then performs its creation calls under `VK_CHECK_RESULT`. -/
def prepareOffscreen (validDepthFormat : Bool) (ok : VkOp → Bool) :
    Except SetupAbort Unit :=
  if validDepthFormat then runChecks ok prepareOffscreenOps
  else Except.error SetupAbort.assertFailed

/-- The checked creation calls of `prepareCSM` in source order
(main.cpp:568-645): render pass, layered depth image, memory allocation and
bind, full-array view, per-cascade view and framebuffer, sampler. -/
def prepareCSMOps : List VkOp :=
  [VkOp.csmRenderPass, VkOp.csmImage, VkOp.csmAlloc, VkOp.csmBind, VkOp.csmFullView] ++
  ((List.range SHADOW_MAP_CASCADE_COUNT).flatMap fun i =>
    [VkOp.csmCascadeView i, VkOp.csmCascadeFramebuffer i]) ++
  [VkOp.csmSampler]

/-- Function `prepareCSM` (main.cpp:513-646): receives the supported-depth-format
query's result but never checks it, then performs its creation calls under
`VK_CHECK_RESULT`. -/
def prepareCSM (validDepthFormat : Bool) (ok : VkOp → Bool) :
    Except SetupAbort Unit :=
  let _unusedQueryResult := validDepthFormat
  runChecks ok prepareCSMOps

/-- C1: every built frame command stream records, in order: a shadow depth
pass on each cascade's framebuffer for cascades 0..3 in increasing order,
then the refraction pass, then the reflection pass, then the main swapchain
pass; within the main pass the scene draws (sky, terrain) come first, then
the mirror-plane draw, then the toggle-gated full-screen quad draws, and
the UI overlay draw is the last draw, recorded immediately before the pass
ends. -/
theorem buildCommandBuffer_pass_order :
    ∀ (r f c : Bool) (ci image : ℕ),
      passBegins (buildCommandBuffer r f c ci image) =
        [FramebufferId.cascadeFB 0, FramebufferId.cascadeFB 1,
         FramebufferId.cascadeFB 2, FramebufferId.cascadeFB 3,
         FramebufferId.refractionFB, FramebufferId.reflectionFB,
         FramebufferId.swapchainFB image] ∧
      drawTags (mainPass r f c ci image) =
        [DrawTag.model ModelId.skysphere, DrawTag.model ModelId.heightMapTerrain,
         DrawTag.model ModelId.waterPlane] ++
        (if r then [DrawTag.fullscreenQuad] else []) ++
        (if f then [DrawTag.fullscreenQuad] else []) ++
        (if c then [DrawTag.fullscreenQuad] else []) ++
        [DrawTag.ui] ∧
      (mainPass r f c ci image).getLast? = some Cmd.endPass ∧
      (mainPass r f c ci image).dropLast.getLast? = some Cmd.drawUI := by
  intro r f c ci image
  cases r <;> cases f <;> cases c <;>
    exact ⟨rfl, rfl, rfl, rfl⟩

/-!
Cascade calculator (`updateCascades`, main.cpp:652-732), embedded over the
real numbers.  glm matrices are represented as row-indexed 4x4 real
matrices, so glm's matrix-matrix and matrix-vector products are the
standard ones.
-/

noncomputable section

/-- A glm::vec3 over the reals. -/
@[ext]
structure Vec3 where
  x : ℝ
  y : ℝ
  z : ℝ

instance : Add Vec3 := ⟨fun a b => ⟨a.x + b.x, a.y + b.y, a.z + b.z⟩⟩

instance : Sub Vec3 := ⟨fun a b => ⟨a.x - b.x, a.y - b.y, a.z - b.z⟩⟩

instance : Neg Vec3 := ⟨fun a => ⟨-a.x, -a.y, -a.z⟩⟩

instance : SMul ℝ Vec3 := ⟨fun s a => ⟨s * a.x, s * a.y, s * a.z⟩⟩

/-- glm dot product on vec3. -/
def Vec3.dot (a b : Vec3) : ℝ := a.x * b.x + a.y * b.y + a.z * b.z

/-- glm length of a vec3. -/
def Vec3.length (a : Vec3) : ℝ := Real.sqrt (Vec3.dot a a)

/-- glm normalize of a vec3. -/
def Vec3.normalize (a : Vec3) : Vec3 := (1 / Vec3.length a) • a

/-- glm cross product. -/
def Vec3.cross (a b : Vec3) : Vec3 :=
  ⟨a.y * b.z - b.y * a.z, a.z * b.x - b.z * a.x, a.x * b.y - b.x * a.y⟩

/-- glm normalize of a vec4 (main.cpp:722 normalizes `-lightPos`, a vec4,
before truncating it to a vec3). -/
def normalize4 (v : Fin 4 → ℝ) : Fin 4 → ℝ :=
  fun j => v j / Real.sqrt (v 0 * v 0 + v 1 * v 1 + v 2 * v 2 + v 3 * v 3)

/-- glm::lookAtRH(eye, center, up) as a row-indexed matrix. -/
def lookAt (eye center up : Vec3) : Matrix (Fin 4) (Fin 4) ℝ :=
  let f := Vec3.normalize (center - eye)
  let s := Vec3.normalize (Vec3.cross f up)
  let u := Vec3.cross s f
  Matrix.of
    ![![s.x, s.y, s.z, -(Vec3.dot s eye)],
      ![u.x, u.y, u.z, -(Vec3.dot u eye)],
      ![-f.x, -f.y, -f.z, Vec3.dot f eye],
      ![0, 0, 0, 1]]

/-- glm::orthoRH_ZO(left, right, bottom, top, zNear, zFar): the build forces
GLM_FORCE_DEPTH_ZERO_TO_ONE (main.cpp:16). -/
def glmOrtho (l r b t zNear zFar : ℝ) : Matrix (Fin 4) (Fin 4) ℝ :=
  Matrix.of
    ![![2 / (r - l), 0, 0, -(r + l) / (r - l)],
      ![0, 2 / (t - b), 0, -(t + b) / (t - b)],
      ![0, 0, -1 / (zFar - zNear), -zNear / (zFar - zNear)],
      ![0, 0, 0, 1]]

/-- The camera state read by `updateCascades`: near/far clip distances and
the current perspective and view matrices. -/
structure Camera where
  nearClip : ℝ
  farClip : ℝ
  perspective : Matrix (Fin 4) (Fin 4) ℝ
  view : Matrix (Fin 4) (Fin 4) ℝ

/-- The split-fraction computation of `updateCascades` (main.cpp:656-674)
for cascade index `i` out of `n` with distribution bias `lambda`
(`cascadeSplitLambda`). -/
def cascadeSplit (nearClip farClip lambda : ℝ) (n : ℕ) (i : ℕ) : ℝ :=
  let clipRange := farClip - nearClip
  let minZ := nearClip
  let maxZ := nearClip + clipRange
  let range := maxZ - minZ
  let ratio := maxZ / minZ
  let p := ((i : ℝ) + 1) / (n : ℝ)
  let logSplit := minZ * ratio ^ p
  let uniformSplit := minZ + range * p
  let d := lambda * (logSplit - uniformSplit) + uniformSplit
  (d - nearClip) / clipRange

/-- The 8 canonical clip-space frustum corners (main.cpp:681-690). -/
def frustumCornersNDC : Fin 8 → Vec3 :=
  ![⟨-1, 1, -1⟩, ⟨1, 1, -1⟩, ⟨1, -1, -1⟩, ⟨-1, -1, -1⟩,
    ⟨-1, 1, 1⟩, ⟨1, 1, 1⟩, ⟨1, -1, 1⟩, ⟨-1, -1, 1⟩]

/-- Unproject one corner through the inverse camera matrix and divide by w
(main.cpp:693-697). -/
def unprojectCorner (invCam : Matrix (Fin 4) (Fin 4) ℝ) (c : Vec3) : Vec3 :=
  let invCorner := invCam.mulVec ![c.x, c.y, c.z, 1]
  ⟨invCorner 0 / invCorner 3, invCorner 1 / invCorner 3, invCorner 2 / invCorner 3⟩

/-- Carve the cascade's frustum slice (main.cpp:699-703): with
`dist = corners[i+4] - corners[i]`, each near corner i becomes
`corners[i] + dist * lastSplitDist` and each far corner i+4 becomes
`corners[i] + dist * splitDist`. -/
def sliceCorners (corners : Fin 8 → Vec3) (lastSplitDist splitDist : ℝ) :
    Fin 8 → Vec3 :=
  fun i =>
    if h : (i : ℕ) < 4 then
      let dist := corners ⟨(i : ℕ) + 4, by omega⟩ - corners i
      corners i + lastSplitDist • dist
    else
      let j : Fin 8 := ⟨(i : ℕ) - 4, by omega⟩
      let dist := corners i - corners j
      corners j + splitDist • dist

/-- Frustum slice center: the average of the 8 slice corners
(main.cpp:706-710). -/
def frustumCenter (corners : Fin 8 → Vec3) : Vec3 :=
  (1 / 8 : ℝ) • ((List.finRange 8).map corners).foldl (· + ·) ⟨0, 0, 0⟩

/-- Raw bounding-sphere radius: the maximum corner distance from the center
(main.cpp:712-716). -/
def cascadeRawRadius (corners : Fin 8 → Vec3) (center : Vec3) : ℝ :=
  ((List.finRange 8).map fun i => Vec3.length (corners i - center)).foldl max 0

/-- The radius snap of main.cpp:717: std::ceil(radius * 16) / 16. -/
def snapRadius (radius : ℝ) : ℝ := (⌈radius * 16⌉ : ℝ) / 16

/-- The snapped bounding-sphere radius used to size the light-space
orthographic projection. -/
def cascadeRadius (corners : Fin 8 → Vec3) (center : Vec3) : ℝ :=
  snapRadius (cascadeRawRadius corners center)

/-- The per-cascade body of `updateCascades`' second loop (main.cpp:678-728):
the stored (splitDepth, viewProjMatrix) pair of one cascade, given the
accumulator value `lastSplitDist` and the cascade's own split `splitDist`. -/
def computeCascade (camera : Camera) (lightPos : Fin 4 → ℝ)
    (lastSplitDist splitDist : ℝ) : ℝ × Matrix (Fin 4) (Fin 4) ℝ :=
  let clipRange := camera.farClip - camera.nearClip
  let invCam := (camera.perspective * camera.view)⁻¹
  let worldCorners := fun i => unprojectCorner invCam (frustumCornersNDC i)
  let corners := sliceCorners worldCorners lastSplitDist splitDist
  let center := frustumCenter corners
  let radius := cascadeRadius corners center
  let maxExtents : Vec3 := ⟨radius, radius, radius⟩
  let minExtents : Vec3 := -maxExtents
  let nl := normalize4 (fun j => -(lightPos j))
  let lightDir : Vec3 := ⟨nl 0, nl 1, nl 2⟩
  let lightViewMatrix :=
    lookAt (center - (-minExtents.z) • lightDir) center ⟨0, 1, 0⟩
  let lightOrthoMatrix :=
    glmOrtho minExtents.x maxExtents.x minExtents.y maxExtents.y 0
      (maxExtents.z - minExtents.z)
  ((camera.nearClip + splitDist * clipRange) * (-1), lightOrthoMatrix * lightViewMatrix)

/-- The second loop of `updateCascades` (main.cpp:677-731), carrying the
`lastSplitDist` accumulator, which is set to the cascade's own split after
each iteration. -/
def goCascades (camera : Camera) (lightPos : Fin 4 → ℝ) (lambda : ℝ) :
    ℕ → ℕ → ℝ → List (ℝ × Matrix (Fin 4) (Fin 4) ℝ)
  | 0, _, _ => []
  | fuel + 1, i, lastSplitDist =>
      let splitDist := cascadeSplit camera.nearClip camera.farClip lambda
        SHADOW_MAP_CASCADE_COUNT i
      computeCascade camera lightPos lastSplitDist splitDist ::
        goCascades camera lightPos lambda fuel (i + 1) splitDist

/-- The per-cascade output list of one `updateCascades` invocation: the
accumulator starts at 0 (main.cpp:677) and the loop covers cascades 0..3. -/
def cascadesList (camera : Camera) (lightPos : Fin 4 → ℝ) (lambda : ℝ) :
    List (ℝ × Matrix (Fin 4) (Fin 4) ℝ) :=
  goCascades camera lightPos lambda SHADOW_MAP_CASCADE_COUNT 0 0

/-- Per-cascade resources (struct Cascade, main.cpp:202-213): the GPU
handles are opaque; `splitDepth` and `viewProjMatrix` are the two fields
`updateCascades` stores. -/
structure Cascade where
  frameBuffer : ℕ
  descriptorSet : ℕ
  view : ℕ
  splitDepth : ℝ
  viewProjMatrix : Matrix (Fin 4) (Fin 4) ℝ
  descriptor : ℕ

/-- The state read and written by `updateCascades`: camera, light position,
split lambda and the cascade array. -/
structure RenderState where
  camera : Camera
  lightPos : Fin 4 → ℝ
  cascadeSplitLambda : ℝ
  cascades : List Cascade

/-- Store one computed (splitDepth, viewProjMatrix) pair into a cascade
record (main.cpp:726-728), leaving every other field untouched. -/
def storeCascade (c : Cascade) (p : ℝ × Matrix (Fin 4) (Fin 4) ℝ) : Cascade :=
  { c with splitDepth := p.1, viewProjMatrix := p.2 }

/-- Function `updateCascades` (main.cpp:652-732): recompute the split depths and
light-space view-projection matrices from the current camera, light and
lambda, and store them into the cascade records. -/
def updateCascades (st : RenderState) : RenderState :=
  let pairs := cascadesList st.camera st.lightPos st.cascadeSplitLambda
  { st with cascades := List.zipWith storeCascade st.cascades pairs }

/-- The observable output of `updateCascades` for one cascade record. -/
def cascadeOutput (c : Cascade) : ℝ × Matrix (Fin 4) (Fin 4) ℝ :=
  (c.splitDepth, c.viewProjMatrix)

end

/-- Scaling the identity by (1,-1,1) gives the y-negating diagonal matrix. -/
theorem glmScale_one_negY :
    glmScale 1 ![1, -1, 1] = Matrix.diagonal ![1, -1, 1, 1] := by
  ext i j
  fin_cases i <;> fin_cases j <;>
    simp [glmScale, Matrix.diagonal, Matrix.one_apply]

/-- C5: the push-constant block of `drawScene` is a fixed table of the
draw-mode tag: refract gives identity scale, the water clip plane (0,1,0,0)
and shadows off; reflect gives the y-negated scale, the same clip plane and
shadows off; display gives identity scale, no clipping and shadows on; and
one invocation pushes the same block for both the sky and terrain draws. -/
theorem scenePushConst_table :
    scenePushConst SceneDrawType.sceneDrawTypeRefract =
      { scale := 1, clipPlane := ![0, 1, 0, 0], shadows := 0 } ∧
    scenePushConst SceneDrawType.sceneDrawTypeReflect =
      { scale := Matrix.diagonal ![1, -1, 1, 1], clipPlane := ![0, 1, 0, 0], shadows := 0 } ∧
    scenePushConst SceneDrawType.sceneDrawTypeDisplay =
      { scale := 1, clipPlane := ![0, 0, 0, 0], shadows := 1 } ∧
    ∀ drawType, scenePushes (drawScene drawType) =
      [scenePushConst drawType, scenePushConst drawType] := by
  refine ⟨rfl, ?_, rfl, ?_⟩
  · rw [show scenePushConst SceneDrawType.sceneDrawTypeReflect =
        { scale := glmScale 1 ![1, -1, 1], clipPlane := ![0, 1, 0, 0],
          shadows := 0 } from rfl, glmScale_one_negY]
  · intro drawType
    cases drawType <;> rfl

/-- C6: OnUpdateUIOverlay rebuilds the whole command stream (every swapchain
image) synchronously whenever one of the three debug toggles changes, and
the number of full-screen quad draws (6-vertex non-indexed draws) recorded
in the main pass equals the number of enabled toggles, independently of
scene geometry. -/
theorem debug_toggle_rebuild_quad_count :
    ∀ (st : AppState) (newReflection newRefraction newCascade : Bool),
      ((st.debugDisplayReflection ≠ newReflection ∨
        st.debugDisplayRefraction ≠ newRefraction ∨
        st.cascadeDebugEnabled ≠ newCascade) →
        (OnUpdateUIOverlay newReflection newRefraction newCascade st).commandBuffers =
          (List.range st.imageCount).map
            (buildCommandBuffer newReflection newRefraction newCascade
              st.cascadeDebugIndex)) ∧
      ∀ (r f c : Bool) (ci image : ℕ),
        (mainPass r f c ci image).countP isFullscreenQuadDraw =
          (if r then 1 else 0) + (if f then 1 else 0) + (if c then 1 else 0) := by
  intro st nr nf nc
  constructor
  · intro hchanged
    by_cases h1 : st.debugDisplayReflection = nr <;>
      by_cases h2 : st.debugDisplayRefraction = nf <;>
        by_cases h3 : st.cascadeDebugEnabled = nc <;>
          simp_all [OnUpdateUIOverlay, buildCommandBuffers]
  · intro r f c ci image
    cases r <;> cases f <;> cases c <;> rfl

/-- Running the checked calls succeeds exactly when every call's result is a
success. -/
theorem runChecks_ok_iff (ok : VkOp → Bool) (ops : List VkOp) :
    runChecks ok ops = Except.ok () ↔ ∀ op ∈ ops, ok op = true := by
  induction ops with
  | nil => simp [runChecks]
  | cons a ops ih =>
      by_cases ha : ok a = true <;>
        simp [runChecks, vkCheckResult, ha, ih, Except.bind]

/-- A failed run aborts with a vkFail naming an operation of the list whose
result was a failure. -/
theorem runChecks_error (ok : VkOp → Bool) (ops : List VkOp) (e : SetupAbort) :
    runChecks ok ops = Except.error e →
      ∃ op, e = SetupAbort.vkFail op ∧ ok op = false ∧ op ∈ ops := by
  induction ops with
  | nil => simp [runChecks]
  | cons a ops ih =>
      by_cases ha : ok a = true
      · intro h
        simp only [runChecks, vkCheckResult, ha, if_true] at h
        obtain ⟨op, hop⟩ := ih h
        exact ⟨op, hop.1, hop.2.1, List.mem_cons_of_mem _ hop.2.2⟩
      · intro h
        simp only [runChecks, vkCheckResult, ha, if_false] at h
        refine ⟨a, ?_, by simpa using ha, List.mem_cons_self _ _⟩
        cases h
        rfl

/-- C9 counterexample: with every creation call succeeding but the
supported-depth-format query failing, `prepareCSM` completes successfully:
the query's failure is silently ignored rather than aborting with the
failing operation identified (main.cpp:516 drops the query's result). -/
theorem prepareCSM_ignores_depth_format_query :
    prepareCSM false (fun _ => true) = Except.ok () ∧
    prepareOffscreen false (fun _ => true) = Except.error SetupAbort.assertFailed := by
  exact ⟨rfl, rfl⟩

/-- C9 (amended): every `VK_CHECK_RESULT`-wrapped creation call of
`prepareCSM` and `prepareOffscreen` is checked — the path succeeds exactly
when all of its checked calls succeed, and any abort identifies a failed
operation of the path — and `prepareOffscreen` additionally aborts when the
supported-depth-format query fails; but `prepareCSM`'s outcome is
independent of that query's result. -/
theorem setup_checks_abort_on_failure :
    ∀ (validDepthFormat : Bool) (ok : VkOp → Bool),
      (prepareCSM validDepthFormat ok = Except.ok () ↔
        ∀ op ∈ prepareCSMOps, ok op = true) ∧
      (∀ e, prepareCSM validDepthFormat ok = Except.error e →
        ∃ op, e = SetupAbort.vkFail op ∧ ok op = false ∧ op ∈ prepareCSMOps) ∧
      prepareCSM validDepthFormat ok = prepareCSM (!validDepthFormat) ok ∧
      prepareOffscreen false ok = Except.error SetupAbort.assertFailed ∧
      (prepareOffscreen true ok = Except.ok () ↔
        ∀ op ∈ prepareOffscreenOps, ok op = true) ∧
      (∀ e, prepareOffscreen true ok = Except.error e →
        ∃ op, e = SetupAbort.vkFail op ∧ ok op = false ∧ op ∈ prepareOffscreenOps) := by
  intro validDepthFormat ok
  refine ⟨?_, ?_, rfl, rfl, ?_, ?_⟩
  · exact runChecks_ok_iff ok prepareCSMOps
  · exact fun e => runChecks_error ok prepareCSMOps e
  · exact runChecks_ok_iff ok prepareOffscreenOps
  · exact fun e => runChecks_error ok prepareOffscreenOps e

/-- Since maxZ = nearClip + (farClip - nearClip) = farClip, the split
fraction has range = farClip - nearClip and ratio = farClip / nearClip. -/
theorem cascadeSplit_eq (nearClip farClip lambda : ℝ) (n i : ℕ) :
    cascadeSplit nearClip farClip lambda n i =
      ((lambda * (nearClip * (farClip / nearClip) ^ (((i : ℝ) + 1) / (n : ℝ)) -
          (nearClip + (farClip - nearClip) * (((i : ℝ) + 1) / (n : ℝ)))) +
        (nearClip + (farClip - nearClip) * (((i : ℝ) + 1) / (n : ℝ)))) - nearClip) /
      (farClip - nearClip) := by
  have h : nearClip + (farClip - nearClip) = farClip := by ring
  simp only [cascadeSplit]
  rw [h]

/-- C2: for every cascade index i with 0 < near and near < far, the
recomputation stores the normalized split fraction
((lambda * (log - uniform) + uniform) - near) / range, where
range = far - near, ratio = far / near, p = (i+1)/N, log = near * ratio^p
and uniform = near + range * p. -/
theorem cascadeSplit_formula :
    ∀ (nearClip farClip lambda : ℝ) (n i : ℕ),
      0 < nearClip → nearClip < farClip →
      cascadeSplit nearClip farClip lambda n i =
        ((lambda * (nearClip * (farClip / nearClip) ^ (((i : ℝ) + 1) / (n : ℝ)) -
            (nearClip + (farClip - nearClip) * (((i : ℝ) + 1) / (n : ℝ)))) +
          (nearClip + (farClip - nearClip) * (((i : ℝ) + 1) / (n : ℝ)))) - nearClip) /
        (farClip - nearClip) := by
  intro nearClip farClip lambda n i _ _
  exact cascadeSplit_eq nearClip farClip lambda n i

/-- C2 witness: the formula evaluated at near = 1, far = 2, lambda = 1,
N = 4, cascade 0. -/
theorem cascadeSplit_formula_witness :
    cascadeSplit 1 2 1 4 0 =
      ((1 * (1 * (2 / 1 : ℝ) ^ ((((0 : ℕ) : ℝ) + 1) / (((4 : ℕ) : ℝ))) -
          (1 + (2 - 1) * ((((0 : ℕ) : ℝ) + 1) / (((4 : ℕ) : ℝ))))) +
        (1 + (2 - 1) * ((((0 : ℕ) : ℝ) + 1) / (((4 : ℕ) : ℝ))))) - 1) / (2 - 1) :=
  cascadeSplit_formula 1 2 1 4 0 (by norm_num) (by norm_num)

/-- C3: for lambda in [0.1, 1] and any cascade count N >= 1 with
0 < near < far, the N split fractions are strictly increasing and lie in
(0, 1]; at lambda = 0 the blend reduces to the pure uniform split and the
last split fraction equals 1; at lambda = 1 it reduces to the pure
logarithmic split. -/
theorem cascadeSplits_strict_mono_bounds :
    ∀ (nearClip farClip lambda : ℝ) (n : ℕ),
      0 < nearClip → nearClip < farClip → 1 / 10 ≤ lambda → lambda ≤ 1 → 1 ≤ n →
      (∀ i j, i < j → j < n →
        cascadeSplit nearClip farClip lambda n i <
          cascadeSplit nearClip farClip lambda n j) ∧
      (∀ i, i < n → 0 < cascadeSplit nearClip farClip lambda n i ∧
        cascadeSplit nearClip farClip lambda n i ≤ 1) ∧
      cascadeSplit nearClip farClip 0 n (n - 1) = 1 ∧
      (∀ i, cascadeSplit nearClip farClip 0 n i =
        ((nearClip + (farClip - nearClip) * (((i : ℝ) + 1) / (n : ℝ))) - nearClip) /
          (farClip - nearClip)) ∧
      (∀ i, cascadeSplit nearClip farClip 1 n i =
        ((nearClip * (farClip / nearClip) ^ (((i : ℝ) + 1) / (n : ℝ))) - nearClip) /
          (farClip - nearClip)) := by
  intro near far lam n h0 hnf hlam0 hlam1 hn
  have hnpos : (0 : ℝ) < (n : ℝ) := by
    have : 0 < n := hn
    exact_mod_cast this
  have hrange : (0 : ℝ) < far - near := sub_pos.mpr hnf
  have hratio : 1 < far / near := (one_lt_div h0).mpr hnf
  have hlampos : (0 : ℝ) < lam := lt_of_lt_of_le (by norm_num) hlam0
  have hppos : ∀ i : ℕ, 0 < ((i : ℝ) + 1) / (n : ℝ) := fun i => by positivity
  have hpmono : ∀ i j : ℕ, i < j →
      ((i : ℝ) + 1) / (n : ℝ) < ((j : ℝ) + 1) / (n : ℝ) := by
    intro i j hij
    have hcast : ((i : ℝ) + 1) < ((j : ℝ) + 1) := by
      exact_mod_cast Nat.succ_lt_succ hij
    gcongr
  have hple : ∀ i : ℕ, i < n → ((i : ℝ) + 1) / (n : ℝ) ≤ 1 := by
    intro i hi
    rw [div_le_one hnpos]
    exact_mod_cast hi
  have hlog_gt : ∀ i : ℕ,
      near < near * (far / near) ^ (((i : ℝ) + 1) / (n : ℝ)) := by
    intro i
    have h1 : 1 < (far / near) ^ (((i : ℝ) + 1) / (n : ℝ)) :=
      (Real.one_lt_rpow_iff_of_pos (by positivity)).mpr (Or.inl ⟨hratio, hppos i⟩)
    nlinarith
  have huni_gt : ∀ i : ℕ,
      near < near + (far - near) * (((i : ℝ) + 1) / (n : ℝ)) := by
    intro i
    nlinarith [hppos i]
  have hlog_le : ∀ i : ℕ, i < n →
      near * (far / near) ^ (((i : ℝ) + 1) / (n : ℝ)) ≤ far := by
    intro i hi
    have h1 : (far / near) ^ (((i : ℝ) + 1) / (n : ℝ)) ≤ (far / near) ^ (1 : ℝ) :=
      Real.rpow_le_rpow_of_exponent_le hratio.le (hple i hi)
    rw [Real.rpow_one] at h1
    have h2 : near * (far / near) = far := by field_simp
    nlinarith
  have huni_le : ∀ i : ℕ, i < n →
      near + (far - near) * (((i : ℝ) + 1) / (n : ℝ)) ≤ far := by
    intro i hi
    nlinarith [hple i hi]
  have hlog_mono : ∀ i j : ℕ, i < j →
      near * (far / near) ^ (((i : ℝ) + 1) / (n : ℝ)) <
        near * (far / near) ^ (((j : ℝ) + 1) / (n : ℝ)) := by
    intro i j hij
    exact mul_lt_mul_of_pos_left
      (Real.rpow_lt_rpow_of_exponent_lt hratio (hpmono i j hij)) h0
  have huni_mono : ∀ i j : ℕ, i < j →
      near + (far - near) * (((i : ℝ) + 1) / (n : ℝ)) <
        near + (far - near) * (((j : ℝ) + 1) / (n : ℝ)) := by
    intro i j hij
    nlinarith [hpmono i j hij]
  refine ⟨?_, ?_, ?_, ?_, ?_⟩
  · intro i j hij _
    rw [cascadeSplit_eq, cascadeSplit_eq]
    have hL := hlog_mono i j hij
    have hU := huni_mono i j hij
    have hnum :
        lam * (near * (far / near) ^ (((i : ℝ) + 1) / (n : ℝ)) -
            (near + (far - near) * (((i : ℝ) + 1) / (n : ℝ)))) +
          (near + (far - near) * (((i : ℝ) + 1) / (n : ℝ))) <
        lam * (near * (far / near) ^ (((j : ℝ) + 1) / (n : ℝ)) -
            (near + (far - near) * (((j : ℝ) + 1) / (n : ℝ)))) +
          (near + (far - near) * (((j : ℝ) + 1) / (n : ℝ))) := by
      nlinarith [mul_pos hlampos (sub_pos.mpr hL),
        mul_nonneg (sub_nonneg.mpr hlam1) (sub_pos.mpr hU).le]
    gcongr
  · intro i hi
    rw [cascadeSplit_eq]
    constructor
    · apply div_pos _ hrange
      nlinarith [mul_pos hlampos (sub_pos.mpr (hlog_gt i)),
        mul_nonneg (sub_nonneg.mpr hlam1) (sub_pos.mpr (huni_gt i)).le]
    · rw [div_le_one hrange]
      nlinarith [mul_nonneg hlampos.le (sub_nonneg.mpr (hlog_le i hi)),
        mul_nonneg (sub_nonneg.mpr hlam1) (sub_nonneg.mpr (huni_le i hi))]
  · rw [cascadeSplit_eq]
    have hcast : (((n - 1 : ℕ) : ℝ) + 1) = (n : ℝ) := by
      rw [Nat.cast_sub hn]
      push_cast
      ring
    rw [hcast, div_self (ne_of_gt hnpos)]
    field_simp
  · intro i
    rw [cascadeSplit_eq]
    ring_nf
  · intro i
    rw [cascadeSplit_eq]
    ring_nf

/-- C3 witness: the split bounds at near = 1, far = 2, lambda = 1, N = 1,
cascade 0. -/
theorem cascadeSplits_strict_mono_bounds_witness :
    0 < cascadeSplit 1 2 1 1 0 ∧ cascadeSplit 1 2 1 1 0 ≤ 1 :=
  (cascadeSplits_strict_mono_bounds 1 2 1 1 (by norm_num) (by norm_num)
    (by norm_num) (by norm_num) (by norm_num)).2.1 0 (by norm_num)

/-- Componentwise addition on Vec3. -/
@[simp]
theorem Vec3.add_def (a b : Vec3) : a + b = ⟨a.x + b.x, a.y + b.y, a.z + b.z⟩ := rfl

/-- Componentwise scalar multiplication on Vec3. -/
@[simp]
theorem Vec3.smul_def (s : ℝ) (a : Vec3) : s • a = ⟨s * a.x, s * a.y, s * a.z⟩ := rfl

/-- The cascade loop unrolled: the accumulator entering cascade i is 0 for
cascade 0 and cascade (i-1)'s split fraction otherwise. -/
theorem cascadesList_unfold (camera : Camera) (lightPos : Fin 4 → ℝ) (lambda : ℝ) :
    cascadesList camera lightPos lambda =
      [computeCascade camera lightPos 0
        (cascadeSplit camera.nearClip camera.farClip lambda SHADOW_MAP_CASCADE_COUNT 0),
       computeCascade camera lightPos
        (cascadeSplit camera.nearClip camera.farClip lambda SHADOW_MAP_CASCADE_COUNT 0)
        (cascadeSplit camera.nearClip camera.farClip lambda SHADOW_MAP_CASCADE_COUNT 1),
       computeCascade camera lightPos
        (cascadeSplit camera.nearClip camera.farClip lambda SHADOW_MAP_CASCADE_COUNT 1)
        (cascadeSplit camera.nearClip camera.farClip lambda SHADOW_MAP_CASCADE_COUNT 2),
       computeCascade camera lightPos
        (cascadeSplit camera.nearClip camera.farClip lambda SHADOW_MAP_CASCADE_COUNT 2)
        (cascadeSplit camera.nearClip camera.farClip lambda SHADOW_MAP_CASCADE_COUNT 3)] :=
  rfl

/-- C4: cascade i's result is stored at index i and is computed from the
slice starting at the previous cascade's split fraction (0 for cascade 0,
so cascade 0's slice starts at the camera near plane) and ending at cascade
i's own split fraction, so consecutive slices are contiguous; the stored
splitDepth is -(near + splitFraction * range); and a slice whose start
fraction is 0 keeps the unprojected near-plane corners unchanged. -/
theorem updateCascades_slice_assignment :
    ∀ (camera : Camera) (lightPos : Fin 4 → ℝ) (lambda : ℝ),
      (∀ i : ℕ, i < SHADOW_MAP_CASCADE_COUNT →
        (cascadesList camera lightPos lambda)[i]? =
          some (computeCascade camera lightPos
            (if i = 0 then 0
             else cascadeSplit camera.nearClip camera.farClip lambda
               SHADOW_MAP_CASCADE_COUNT (i - 1))
            (cascadeSplit camera.nearClip camera.farClip lambda
              SHADOW_MAP_CASCADE_COUNT i))) ∧
      (∀ lastSplitDist splitDist : ℝ,
        (computeCascade camera lightPos lastSplitDist splitDist).1 =
          -(camera.nearClip + splitDist * (camera.farClip - camera.nearClip))) ∧
      (∀ (corners : Fin 8 → Vec3) (splitDist : ℝ) (j : Fin 8), (j : ℕ) < 4 →
        sliceCorners corners 0 splitDist j = corners j) := by
  intro camera lightPos lambda
  refine ⟨?_, ?_, ?_⟩
  · intro i hi
    have h4 : i < 4 := hi
    interval_cases i <;> simp [cascadesList_unfold]
  · intro lastSplitDist splitDist
    simp only [computeCascade]
    ring
  · intro corners splitDist j hj
    simp only [sliceCorners, hj, dif_pos]
    ext <;> simp

/-- Storing a computed pair then reading the observable output returns the
pair: the stored fields are exactly the pair's components. -/
theorem cascadeOutput_storeCascade (c : Cascade) (p : ℝ × Matrix (Fin 4) (Fin 4) ℝ) :
    cascadeOutput (storeCascade c p) = p := rfl

/-- Mapping the observable output over the stored cascade array gives the
computed pair list, truncated to the cascade array's length. -/
theorem map_cascadeOutput_zipWith (cs : List Cascade)
    (ps : List (ℝ × Matrix (Fin 4) (Fin 4) ℝ)) :
    (List.zipWith storeCascade cs ps).map cascadeOutput = ps.take cs.length := by
  induction cs generalizing ps with
  | nil => simp
  | cons c cs ih =>
      cases ps with
      | nil => simp
      | cons p ps => simp [cascadeOutput_storeCascade, ih]

/-- Taking at most the list's length saturates. -/
theorem take_min_length {α : Type} (ps : List α) (l : ℕ) :
    ps.take (min l ps.length) = ps.take l := by
  rcases le_total l ps.length with h | h
  · rw [min_eq_left h]
  · rw [min_eq_right h, List.take_length, List.take_of_length_le h]

/-- C7: the cascade recomputation is deterministic — its stored splitDepth
and viewProjMatrix values depend only on the camera state, light position
and split lambda — and idempotent: a second invocation on the updated state
produces identical values, since the previous-split accumulator is
re-initialized to 0 inside each invocation and no other mutable state is
carried between calls. -/
theorem updateCascades_deterministic_idempotent :
    (∀ st st' : RenderState,
      st.camera = st'.camera → st.lightPos = st'.lightPos →
      st.cascadeSplitLambda = st'.cascadeSplitLambda →
      st.cascades.length = st'.cascades.length →
      (updateCascades st).cascades.map cascadeOutput =
        (updateCascades st').cascades.map cascadeOutput) ∧
    (∀ st : RenderState,
      (updateCascades (updateCascades st)).cascades.map cascadeOutput =
        (updateCascades st).cascades.map cascadeOutput) := by
  constructor
  · intro st st' hc hl hlam hlen
    simp [updateCascades, map_cascadeOutput_zipWith, hc, hl, hlam, hlen]
  · intro st
    simp [updateCascades, map_cascadeOutput_zipWith, List.length_zipWith,
      take_min_length]

/-- An element of a zipWith comes from the two lists' elements at the same
index. -/
theorem zipWith_getElem?_eq_some {α β γ : Type} {f : α → β → γ}
    {as : List α} {bs : List β} {i : ℕ} {c : γ}
    (h : (List.zipWith f as bs)[i]? = some c) :
    ∃ a b, as[i]? = some a ∧ bs[i]? = some b ∧ c = f a b := by
  induction as generalizing bs i with
  | nil => simp at h
  | cons a as ih =>
      cases bs with
      | nil => simp at h
      | cons b bs =>
          cases i with
          | zero =>
              simp only [List.zipWith_cons_cons, List.getElem?_cons_zero,
                Option.some.injEq] at h
              exact ⟨a, b, by simp, by simp, h.symm⟩
          | succ i =>
              simp only [List.zipWith_cons_cons, List.getElem?_cons_succ] at h
              obtain ⟨a', b', ha, hb, hc⟩ := ih h
              exact ⟨a', b', by simpa using ha, by simpa using hb, hc⟩

/-- C10: updateCascades writes only splitDepth and viewProjMatrix: every
cascade record keeps its frameBuffer, descriptor set, image view and
descriptor, and the camera state, light position and split lambda it reads
are left unmodified. -/
theorem updateCascades_frame_effect :
    ∀ st : RenderState,
      (updateCascades st).camera = st.camera ∧
      (updateCascades st).lightPos = st.lightPos ∧
      (updateCascades st).cascadeSplitLambda = st.cascadeSplitLambda ∧
      ∀ (i : ℕ) (c' : Cascade),
        (updateCascades st).cascades[i]? = some c' →
        ∃ c : Cascade, st.cascades[i]? = some c ∧
          c'.frameBuffer = c.frameBuffer ∧ c'.descriptorSet = c.descriptorSet ∧
          c'.view = c.view ∧ c'.descriptor = c.descriptor := by
  intro st
  refine ⟨rfl, rfl, rfl, ?_⟩
  intro i c' h
  simp only [updateCascades] at h
  obtain ⟨c, p, hc, _, rfl⟩ := zipWith_getElem?_eq_some h
  exact ⟨c, hc, rfl, rfl, rfl, rfl⟩

/-- C8: the bounding-sphere radius used to size the light-space projection
is the raw maximum corner-to-center distance snapped upward to the nearest
1/16 unit: it equals ceil(16 * r) / 16, is at least the raw radius r, and
is the smallest multiple of 1/16 at least r. -/
theorem cascadeRadius_snap :
    ∀ (corners : Fin 8 → Vec3) (center : Vec3),
      cascadeRadius corners center =
        (⌈16 * cascadeRawRadius corners center⌉ : ℝ) / 16 ∧
      cascadeRawRadius corners center ≤ cascadeRadius corners center ∧
      ∀ k : ℤ, cascadeRawRadius corners center ≤ (k : ℝ) / 16 →
        cascadeRadius corners center ≤ (k : ℝ) / 16 := by
  intro corners center
  refine ⟨by rw [cascadeRadius, snapRadius, mul_comm], ?_, ?_⟩
  · rw [cascadeRadius, snapRadius, le_div_iff₀ (by norm_num : (0 : ℝ) < 16)]
    exact Int.le_ceil _
  · intro k hk
    rw [cascadeRadius, snapRadius]
    have h1 : cascadeRawRadius corners center * 16 ≤ (k : ℝ) := by
      rw [le_div_iff₀ (by norm_num : (0 : ℝ) < 16)] at hk
      exact hk
    have h2 : ((⌈cascadeRawRadius corners center * 16⌉ : ℤ) : ℝ) ≤ (k : ℝ) := by
      exact_mod_cast Int.ceil_le.mpr h1
    gcongr
